import Mathlib

/-!
Verification of the `uwv_kalman_filters` PoseUKF core (PoseUKF.cpp / PoseUKF.hpp).

The development shallowly embeds the filter's process model, measurement models,
innovation gates and the visual-marker augmentation protocol over the rationals.
Real-valued trigonometric functions, the external geographic projection, the
MTK SO(3)/S2 exponential charts and the external hydrodynamic / SVR regression
models are kept as explicit parameters (environment records), because they are
external collaborators of the translated code.  Everything else follows the
C++ source line by line.
-/

/-- A 2-vector of rationals (Eigen::Vector2d / MTK vect of dim 2). -/
structure Vec2 where
  x : ℚ
  y : ℚ
deriving DecidableEq, Repr

/-- A 3-vector of rationals (Eigen::Vector3d / MTK vect of dim 3). -/
structure Vec3 where
  x : ℚ
  y : ℚ
  z : ℚ
deriving DecidableEq, Repr

/-- A quaternion (Eigen::Quaterniond, Hamilton convention, `w` the scalar part). -/
structure Quat where
  w : ℚ
  x : ℚ
  y : ℚ
  z : ℚ
deriving DecidableEq, Repr

instance : Add Vec2 := ⟨fun a b => ⟨a.x + b.x, a.y + b.y⟩⟩
instance : Sub Vec2 := ⟨fun a b => ⟨a.x - b.x, a.y - b.y⟩⟩
instance : Neg Vec2 := ⟨fun a => ⟨-a.x, -a.y⟩⟩
instance : Zero Vec2 := ⟨⟨0, 0⟩⟩
instance : SMul ℚ Vec2 := ⟨fun c a => ⟨c * a.x, c * a.y⟩⟩

instance : Add Vec3 := ⟨fun a b => ⟨a.x + b.x, a.y + b.y, a.z + b.z⟩⟩
instance : Sub Vec3 := ⟨fun a b => ⟨a.x - b.x, a.y - b.y, a.z - b.z⟩⟩
instance : Neg Vec3 := ⟨fun a => ⟨-a.x, -a.y, -a.z⟩⟩
instance : Zero Vec3 := ⟨⟨0, 0, 0⟩⟩
instance : SMul ℚ Vec3 := ⟨fun c a => ⟨c * a.x, c * a.y, c * a.z⟩⟩

@[simp] theorem vec2_add_def (a b : Vec2) : a + b = ⟨a.x + b.x, a.y + b.y⟩ := rfl
@[simp] theorem vec2_sub_def (a b : Vec2) : a - b = ⟨a.x - b.x, a.y - b.y⟩ := rfl
@[simp] theorem vec2_neg_def (a : Vec2) : -a = ⟨-a.x, -a.y⟩ := rfl
@[simp] theorem vec2_zero_x : (0 : Vec2).x = 0 := rfl
@[simp] theorem vec2_zero_y : (0 : Vec2).y = 0 := rfl
@[simp] theorem vec2_smul_def (c : ℚ) (a : Vec2) : c • a = ⟨c * a.x, c * a.y⟩ := rfl
@[simp] theorem vec3_add_def (a b : Vec3) : a + b = ⟨a.x + b.x, a.y + b.y, a.z + b.z⟩ := rfl
@[simp] theorem vec3_sub_def (a b : Vec3) : a - b = ⟨a.x - b.x, a.y - b.y, a.z - b.z⟩ := rfl
@[simp] theorem vec3_neg_def (a : Vec3) : -a = ⟨-a.x, -a.y, -a.z⟩ := rfl
@[simp] theorem vec3_zero_x : (0 : Vec3).x = 0 := rfl
@[simp] theorem vec3_zero_y : (0 : Vec3).y = 0 := rfl
@[simp] theorem vec3_zero_z : (0 : Vec3).z = 0 := rfl
@[simp] theorem vec3_smul_def (c : ℚ) (a : Vec3) : c • a = ⟨c * a.x, c * a.y, c * a.z⟩ := rfl

/-- Cross product of 3-vectors (Eigen `cross`). -/
def crossV (a b : Vec3) : Vec3 :=
  ⟨a.y * b.z - a.z * b.y, a.z * b.x - a.x * b.z, a.x * b.y - a.y * b.x⟩

/-- Rotation of a vector by a quaternion, Eigen's `_transformVector`:
`uv = 2 * q.vec x v; v + q.w * uv + q.vec x uv`. -/
def qrot (q : Quat) (v : Vec3) : Vec3 :=
  let qv : Vec3 := ⟨q.x, q.y, q.z⟩
  let uv : Vec3 := (2 : ℚ) • crossV qv v
  v + q.w • uv + crossV qv uv

/-- Eigen quaternion `inverse()`: conjugate divided by the squared norm
(zero quaternion when the squared norm is zero). -/
def qinv (q : Quat) : Quat :=
  let n2 : ℚ := q.w * q.w + q.x * q.x + q.y * q.y + q.z * q.z
  if n2 = 0 then ⟨0, 0, 0, 0⟩ else ⟨q.w / n2, -q.x / n2, -q.y / n2, -q.z / n2⟩

/-- Eigen `Quaterniond::toRotationMatrix` (standard unit-quaternion formula). -/
def quatToMat (q : Quat) : Matrix (Fin 3) (Fin 3) ℚ :=
  !![1 - 2 * (q.y * q.y + q.z * q.z), 2 * (q.x * q.y - q.z * q.w), 2 * (q.x * q.z + q.y * q.w);
     2 * (q.x * q.y + q.z * q.w), 1 - 2 * (q.x * q.x + q.z * q.z), 2 * (q.y * q.z - q.x * q.w);
     2 * (q.x * q.z - q.y * q.w), 2 * (q.y * q.z + q.x * q.w), 1 - 2 * (q.x * q.x + q.y * q.y)]

/-- The PoseState manifold (PoseState.hpp).  The three 3x3 hydrodynamic parameter
blocks are stored in their column-major vectorized form (`vectorized_type`,
`Fin 9 → ℚ`), which is the form the process model operates on; entry `(r, c)` of
the 3x3 matrix view is component `r + 3 * c`. -/
structure PoseState where
  position : Vec3
  orientation : Quat
  velocity : Vec3
  acceleration : Vec3
  bias_gyro : Vec3
  bias_acc : Vec3
  gravity : ℚ
  inertia : Fin 9 → ℚ
  lin_damping : Fin 9 → ℚ
  quad_damping : Fin 9 → ℚ
  water_velocity : Vec2
  water_velocity_below : Vec2
  bias_adcp : Vec2
  water_density : ℚ
deriving DecidableEq

/-- `PoseUKF::PoseUKFParameter` (PoseUKF.hpp).  Note: the struct carries
`adcp_bias_tau` but no ADCP bias offset. -/
structure PoseUKFParameter where
  imu_in_body : Vec3
  gyro_bias_offset : Vec3
  gyro_bias_tau : ℚ
  acc_bias_offset : Vec3
  acc_bias_tau : ℚ
  inertia_tau : ℚ
  lin_damping_tau : ℚ
  quad_damping_tau : ℚ
  water_velocity_tau : ℚ
  water_velocity_limits : ℚ
  water_velocity_scale : ℚ
  adcp_bias_tau : ℚ
  atmospheric_pressure : ℚ
  water_density_tau : ℚ
deriving DecidableEq

/-- Environment of external collaborators used by the process model.
`navToWorld` is the external `pose_estimation::GeographicProjection` (returns
latitude and longitude for a nav-frame x/y); `cosF`/`sinF` stand for real
cosine/sine, which have no rational counterpart; `earthw` is the external
constant `pose_estimation::EARTHW`; `so3boxplus` is the MTK SO(3) `boxplus`
with its time scale (the quaternion exponential chart, likewise irrational). -/
structure ProcEnv where
  navToWorld : ℚ → ℚ → ℚ × ℚ
  cosF : ℚ → ℚ
  sinF : ℚ → ℚ
  earthw : ℚ
  so3boxplus : Quat → Vec3 → ℚ → Quat

/-- MTK Euclidean `boxplus(delta, scale)`: `x + scale • delta`, for 3-vectors. -/
def v3boxplus (v delta : Vec3) (scale : ℚ) : Vec3 := v + scale • delta

/-- MTK Euclidean `boxplus(delta, scale)` for 2-vectors. -/
def v2boxplus (v delta : Vec2) (scale : ℚ) : Vec2 := v + scale • delta

/-- The earth rotation vector computed inside `processModel`:
`EARTHW * (cos(latitude), 0, sin(latitude))` with the latitude obtained by
projecting the (current) position through the geographic projection. -/
def earthRotationAt (env : ProcEnv) (position : Vec3) : Vec3 :=
  ⟨env.earthw * env.cosF (env.navToWorld position.x position.y).1, 0,
   env.earthw * env.sinF (env.navToWorld position.x position.y).1⟩

/-- `processModel` (PoseUKF.cpp lines 17-86), translated field by field.  All
deltas are computed from the pre-state `state` (the C++ code also reads from
`state`, writing into the copy `new_state`). -/
def processModel (env : ProcEnv) (state : PoseState) (rotation_rate : Vec3)
    (inertia_offset lin_damping_offset quad_damping_offset : Fin 9 → ℚ)
    (water_density_offset : ℚ) (filter_parameter : PoseUKFParameter)
    (delta_time : ℚ) : PoseState :=
  let earth_rotation := earthRotationAt env state.position
  let angular_velocity :=
    qrot state.orientation (rotation_rate - state.bias_gyro) - earth_rotation
  { position := v3boxplus state.position state.velocity delta_time
    orientation := env.so3boxplus state.orientation angular_velocity delta_time
    velocity := v3boxplus state.velocity state.acceleration delta_time
    acceleration := state.acceleration
    bias_gyro := v3boxplus state.bias_gyro
      ((-1 / filter_parameter.gyro_bias_tau) •
        (state.bias_gyro - filter_parameter.gyro_bias_offset)) delta_time
    bias_acc := v3boxplus state.bias_acc
      ((-1 / filter_parameter.acc_bias_tau) •
        (state.bias_acc - filter_parameter.acc_bias_offset)) delta_time
    gravity := state.gravity
    inertia := state.inertia +
      delta_time • ((-1 / filter_parameter.inertia_tau) •
        (state.inertia - inertia_offset))
    lin_damping := state.lin_damping +
      delta_time • ((-1 / filter_parameter.lin_damping_tau) •
        (state.lin_damping - lin_damping_offset))
    quad_damping := state.quad_damping +
      delta_time • ((-1 / filter_parameter.quad_damping_tau) •
        (state.quad_damping - quad_damping_offset))
    water_velocity := v2boxplus state.water_velocity
      ((-1 / filter_parameter.water_velocity_tau) • state.water_velocity) delta_time
    water_velocity_below := v2boxplus state.water_velocity_below
      ((-1 / filter_parameter.water_velocity_tau) • state.water_velocity_below) delta_time
    bias_adcp := v2boxplus state.bias_adcp
      ((-1 / filter_parameter.adcp_bias_tau) • state.bias_adcp) delta_time
    water_density := state.water_density +
      delta_time * ((-1 / filter_parameter.water_density_tau) *
        (state.water_density - water_density_offset)) }

/-- The offsets captured once from the initial state by the `PoseUKF`
constructor (PoseUKF.cpp lines 320-323). -/
structure FilterOffsets where
  inertia_offset : Fin 9 → ℚ
  lin_damping_offset : Fin 9 → ℚ
  quad_damping_offset : Fin 9 → ℚ
  water_density_offset : ℚ

/-- `PoseUKF::PoseUKF` offset capture: the inertia, damping and density offsets
are read from the initial state at construction. -/
def captureOffsets (initial_state : PoseState) : FilterOffsets :=
  { inertia_offset := initial_state.inertia
    lin_damping_offset := initial_state.lin_damping
    quad_damping_offset := initial_state.quad_damping
    water_density_offset := initial_state.water_density }

/-- First-order Gauss-Markov step `x + dt • ((-(1)/τ) • (x - target))` on 3-vectors. -/
def gm3 (x target : Vec3) (tau dt : ℚ) : Vec3 := x + dt • ((-1 / tau) • (x - target))

/-- First-order Gauss-Markov step on 2-vectors. -/
def gm2 (x target : Vec2) (tau dt : ℚ) : Vec2 := x + dt • ((-1 / tau) • (x - target))

/-- First-order Gauss-Markov step on vectorized 3x3 parameter blocks. -/
def gm9 (x target : Fin 9 → ℚ) (tau dt : ℚ) : Fin 9 → ℚ :=
  x + dt • ((-1 / tau) • (x - target))

/-- First-order Gauss-Markov step on scalars. -/
def gm1 (x target : ℚ) (tau dt : ℚ) : ℚ := x + dt * ((-1 / tau) * (x - target))

/-- Claim C2: for every state, latched gyro reading and time step, the process
model advances position by `velocity · Δt`, advances orientation via `boxplus`
by `(orientation · (ω_meas − bias_gyro) − ω_e) · Δt` with
`ω_e = EARTHW · (cos φ, 0, sin φ)` at the latitude φ of the projected current
position, advances velocity by `acceleration · Δt`, and returns the
acceleration and gravity fields unchanged. -/
theorem processModel_kinematics (env : ProcEnv) (state : PoseState)
    (rotation_rate : Vec3) (io lo qo : Fin 9 → ℚ) (wo : ℚ)
    (fp : PoseUKFParameter) (dt : ℚ) :
    (processModel env state rotation_rate io lo qo wo fp dt).position =
      state.position + dt • state.velocity ∧
    (processModel env state rotation_rate io lo qo wo fp dt).orientation =
      env.so3boxplus state.orientation
        (qrot state.orientation (rotation_rate - state.bias_gyro) -
          earthRotationAt env state.position) dt ∧
    (processModel env state rotation_rate io lo qo wo fp dt).velocity =
      state.velocity + dt • state.acceleration ∧
    (processModel env state rotation_rate io lo qo wo fp dt).acceleration =
      state.acceleration ∧
    (processModel env state rotation_rate io lo qo wo fp dt).gravity =
      state.gravity :=
  ⟨rfl, rfl, rfl, rfl, rfl⟩

theorem vec2_sub_zero (v : Vec2) : v - 0 = v := by
  cases v with
  | mk a b => show Vec2.mk (a - 0) (b - 0) = Vec2.mk a b; simp

/-- A Gauss-Markov step toward target zero is the MTK boxplus actually written
in the source for the water-velocity and ADCP-bias states. -/
theorem gm2_target_zero (x : Vec2) (tau dt : ℚ) :
    gm2 x 0 tau dt = v2boxplus x ((-1 / tau) • x) dt := by
  unfold gm2 v2boxplus
  rw [vec2_sub_zero]

/-- Claim C3 (amended): the process model applies the first-order Gauss-Markov
relaxation `x ⊞= (−(x − μ*)/τ) · Δt` to each of the nine drift states, where
μ* is the configuration offset for `bias_gyro` and `bias_acc`, the value
captured from the initial state at construction for `inertia`, `lin_damping`,
`quad_damping` and `water_density`, and ZERO for `water_velocity`,
`water_velocity_below` and `bias_adcp` (the parameter struct provides no ADCP
bias offset). -/
theorem processModel_gauss_markov (env : ProcEnv) (state initial_state : PoseState)
    (rotation_rate : Vec3) (fp : PoseUKFParameter) (dt : ℚ) :
    (processModel env state rotation_rate
        (captureOffsets initial_state).inertia_offset
        (captureOffsets initial_state).lin_damping_offset
        (captureOffsets initial_state).quad_damping_offset
        (captureOffsets initial_state).water_density_offset fp dt).bias_gyro =
      gm3 state.bias_gyro fp.gyro_bias_offset fp.gyro_bias_tau dt ∧
    (processModel env state rotation_rate
        (captureOffsets initial_state).inertia_offset
        (captureOffsets initial_state).lin_damping_offset
        (captureOffsets initial_state).quad_damping_offset
        (captureOffsets initial_state).water_density_offset fp dt).bias_acc =
      gm3 state.bias_acc fp.acc_bias_offset fp.acc_bias_tau dt ∧
    (processModel env state rotation_rate
        (captureOffsets initial_state).inertia_offset
        (captureOffsets initial_state).lin_damping_offset
        (captureOffsets initial_state).quad_damping_offset
        (captureOffsets initial_state).water_density_offset fp dt).inertia =
      gm9 state.inertia initial_state.inertia fp.inertia_tau dt ∧
    (processModel env state rotation_rate
        (captureOffsets initial_state).inertia_offset
        (captureOffsets initial_state).lin_damping_offset
        (captureOffsets initial_state).quad_damping_offset
        (captureOffsets initial_state).water_density_offset fp dt).lin_damping =
      gm9 state.lin_damping initial_state.lin_damping fp.lin_damping_tau dt ∧
    (processModel env state rotation_rate
        (captureOffsets initial_state).inertia_offset
        (captureOffsets initial_state).lin_damping_offset
        (captureOffsets initial_state).quad_damping_offset
        (captureOffsets initial_state).water_density_offset fp dt).quad_damping =
      gm9 state.quad_damping initial_state.quad_damping fp.quad_damping_tau dt ∧
    (processModel env state rotation_rate
        (captureOffsets initial_state).inertia_offset
        (captureOffsets initial_state).lin_damping_offset
        (captureOffsets initial_state).quad_damping_offset
        (captureOffsets initial_state).water_density_offset fp dt).water_velocity =
      gm2 state.water_velocity 0 fp.water_velocity_tau dt ∧
    (processModel env state rotation_rate
        (captureOffsets initial_state).inertia_offset
        (captureOffsets initial_state).lin_damping_offset
        (captureOffsets initial_state).quad_damping_offset
        (captureOffsets initial_state).water_density_offset fp dt).water_velocity_below =
      gm2 state.water_velocity_below 0 fp.water_velocity_tau dt ∧
    (processModel env state rotation_rate
        (captureOffsets initial_state).inertia_offset
        (captureOffsets initial_state).lin_damping_offset
        (captureOffsets initial_state).quad_damping_offset
        (captureOffsets initial_state).water_density_offset fp dt).bias_adcp =
      gm2 state.bias_adcp 0 fp.adcp_bias_tau dt ∧
    (processModel env state rotation_rate
        (captureOffsets initial_state).inertia_offset
        (captureOffsets initial_state).lin_damping_offset
        (captureOffsets initial_state).quad_damping_offset
        (captureOffsets initial_state).water_density_offset fp dt).water_density =
      gm1 state.water_density initial_state.water_density fp.water_density_tau dt := by
  refine ⟨rfl, rfl, rfl, rfl, rfl, ?_, ?_, ?_, rfl⟩
  · exact (gm2_target_zero state.water_velocity fp.water_velocity_tau dt).symm
  · exact (gm2_target_zero state.water_velocity_below fp.water_velocity_tau dt).symm
  · exact (gm2_target_zero state.bias_adcp fp.adcp_bias_tau dt).symm

/-- A trivial concrete collaborator environment for evaluating the process
model on concrete states. -/
def envC3 : ProcEnv :=
  { navToWorld := fun _ _ => (0, 0)
    cosF := fun _ => 1
    sinF := fun _ => 0
    earthw := 0
    so3boxplus := fun q _ _ => q }

/-- A concrete state with a nonzero ADCP bias estimate. -/
def stateC3 : PoseState :=
  { position := 0
    orientation := ⟨1, 0, 0, 0⟩
    velocity := 0
    acceleration := 0
    bias_gyro := 0
    bias_acc := 0
    gravity := 981 / 100
    inertia := fun _ => 0
    lin_damping := fun _ => 0
    quad_damping := fun _ => 0
    water_velocity := 0
    water_velocity_below := 0
    bias_adcp := ⟨2, 0⟩
    water_density := 1025 }

/-- A concrete parameter struct with all time constants 1. -/
def fpC3 : PoseUKFParameter :=
  { imu_in_body := 0
    gyro_bias_offset := 0
    gyro_bias_tau := 1
    acc_bias_offset := 0
    acc_bias_tau := 1
    inertia_tau := 1
    lin_damping_tau := 1
    quad_damping_tau := 1
    water_velocity_tau := 1
    water_velocity_limits := 1
    water_velocity_scale := 1
    adcp_bias_tau := 1
    atmospheric_pressure := 101325
    water_density_tau := 1 }

/-- Claim C3 counterexample: `PoseUKFParameter` has no ADCP bias offset field,
and the source relaxes `bias_adcp` toward zero, not toward a
configuration-provided offset.  At the concrete state with `bias_adcp = (2,0)`,
`τ = 1`, `Δt = 1/2`, the posterior bias is `(1,0)` — the Gauss-Markov step with
target zero — and differs from the step toward any nonzero offset a
configuration could provide, witnessed by the offset `(1,1)`. -/
theorem processModel_adcp_offset_counterexample :
    (processModel envC3 stateC3 0 (fun _ => 0) (fun _ => 0) (fun _ => 0) 0 fpC3
        (1 / 2)).bias_adcp = gm2 stateC3.bias_adcp 0 fpC3.adcp_bias_tau (1 / 2) ∧
    (processModel envC3 stateC3 0 (fun _ => 0) (fun _ => 0) (fun _ => 0) 0 fpC3
        (1 / 2)).bias_adcp ≠ gm2 stateC3.bias_adcp ⟨1, 1⟩ fpC3.adcp_bias_tau (1 / 2) := by
  constructor
  · norm_num [processModel, stateC3, fpC3, gm2, v2boxplus]
  · norm_num [processModel, stateC3, fpC3, gm2, v2boxplus]

/-- `d2p95` (PoseUKF.cpp lines 296-307): the p95 chi-square gate for 2-DOF
innovations; returns `false` (reject) exactly when the squared Mahalanobis
distance exceeds 5.991. -/
def d2p95 (mahalanobis2 : ℚ) : Bool :=
  if mahalanobis2 > 5.991 then false else true

/-- `d2p99` (PoseUKF.cpp lines 283-294): the p99 chi-square gate; rejects when
the squared Mahalanobis distance exceeds 9.21. -/
def d2p99 (mahalanobis2 : ℚ) : Bool :=
  if mahalanobis2 > 9.21 then false else true

/-- Modelled from the spec: `ukfom::accept_any_mahalanobis_distance` lives in
the external ukfom engine, not under src/; per the spec it accepts
unconditionally. -/
def accept_any_mahalanobis_distance (mahalanobis2 : ℚ) : Bool :=
  let _ := mahalanobis2
  true

/-- The measurement kinds declared in PoseUKF.hpp. -/
inductive MeasurementKind where
  | geographicPosition
  | xyPosition
  | zPosition
  | pressure
  | rotationRate
  | acceleration
  | velocity
  | bodyEfforts
  | waterVelocity
  | visualFeature
deriving DecidableEq

/-- The innovation gates passed to the filter update calls by each
`PoseUKF::integrateMeasurement` overload (PoseUKF.cpp lines 353-488), one list
entry per `update` call site in the overload's body.  `RotationRate` performs
no update call (it only latches the reading), and the body-efforts overload
has two call sites (full mode and velocity-only mode). -/
def integrateMeasurementGates : MeasurementKind → List (ℚ → Bool)
  | .geographicPosition => [d2p95]
  | .xyPosition => [d2p95]
  | .zPosition => [accept_any_mahalanobis_distance]
  | .pressure => [accept_any_mahalanobis_distance]
  | .rotationRate => []
  | .acceleration => [accept_any_mahalanobis_distance]
  | .velocity => [accept_any_mahalanobis_distance]
  | .bodyEfforts => [accept_any_mahalanobis_distance, accept_any_mahalanobis_distance]
  | .waterVelocity => [d2p95]
  | .visualFeature => [accept_any_mahalanobis_distance]

/-- Which measurement kinds are gated by the p95 chi-square test. -/
def usesP95 : MeasurementKind → Bool
  | .xyPosition => true
  | .geographicPosition => true
  | .waterVelocity => true
  | _ => false

/-- Total rational matrix inverse `det⁻¹ • adjugate` (the rational stand-in for
the innovation covariance factorization). -/
def matInvQ {m : ℕ} (A : Matrix (Fin m) (Fin m) ℚ) : Matrix (Fin m) (Fin m) ℚ :=
  (A.det)⁻¹ • A.adjugate

/-- Squared Mahalanobis distance `νᵀ S⁻¹ ν`. -/
def mahalanobis2 {m : ℕ} (nu : Fin m → ℚ) (S : Matrix (Fin m) (Fin m) ℚ) : ℚ :=
  Matrix.dotProduct nu ((matInvQ S).mulVec nu)

/-- Modelled from the spec: the UKF engine (the external ukfom library used by
`PoseUKF`) is not under src/.  Per the spec's update algorithm, the gate
receives the squared Mahalanobis distance `νᵀS⁻¹ν`; a `false` result rejects
the update with no change to mean or covariance, otherwise the gain
`K = C·S⁻¹` is applied: `μ ← μ ⊞ K·ν` and `Σ ← Σ − K·S·Kᵀ`, symmetrized. -/
def ukfUpdate {σ : Type} {n m : ℕ} (oplus : σ → (Fin n → ℚ) → σ)
    (mu : σ) (Sigma : Matrix (Fin n) (Fin n) ℚ) (gate : ℚ → Bool)
    (nu : Fin m → ℚ) (S : Matrix (Fin m) (Fin m) ℚ)
    (crossCov : Matrix (Fin n) (Fin m) ℚ) : σ × Matrix (Fin n) (Fin n) ℚ :=
  if gate (mahalanobis2 nu S) then
    let K := crossCov * matInvQ S
    (oplus mu (K.mulVec nu),
     (1 / 2 : ℚ) • ((Sigma - K * S * K.transpose) + (Sigma - K * S * K.transpose).transpose))
  else (mu, Sigma)

/-- Claim C1: every gate passed to an update call by `integrateMeasurement` is
the p95 chi-square gate for XY_Position, GeographicPosition and
WaterVelocityMeasurement and the unconditional-accept gate for every other
kind (RotationRate performs no update call at all); `d2p95` rejects exactly
when `νᵀS⁻¹ν` exceeds 5.991; and a rejected update leaves the state mean and
covariance unchanged. -/
theorem integrateMeasurement_gate_policy :
    (∀ k : MeasurementKind, ∀ g ∈ integrateMeasurementGates k,
        g = if usesP95 k then d2p95 else accept_any_mahalanobis_distance) ∧
    (∀ k : MeasurementKind, usesP95 k = true ↔
        (k = .xyPosition ∨ k = .geographicPosition ∨ k = .waterVelocity)) ∧
    (∀ d : ℚ, d2p95 d = false ↔ (5.991 : ℚ) < d) ∧
    (∀ d : ℚ, accept_any_mahalanobis_distance d = true) ∧
    (∀ (σ : Type) (n m : ℕ) (oplus : σ → (Fin n → ℚ) → σ) (mu : σ)
        (Sigma : Matrix (Fin n) (Fin n) ℚ) (gate : ℚ → Bool) (nu : Fin m → ℚ)
        (S : Matrix (Fin m) (Fin m) ℚ) (crossCov : Matrix (Fin n) (Fin m) ℚ),
        gate (mahalanobis2 nu S) = false →
        ukfUpdate oplus mu Sigma gate nu S crossCov = (mu, Sigma)) := by
  refine ⟨?_, ?_, ?_, ?_, ?_⟩
  · intro k g hg
    cases k <;> simp_all [integrateMeasurementGates, usesP95]
  · intro k
    cases k <;> simp [usesP95]
  · intro d
    unfold d2p95
    split_ifs with h <;> simp [h]
  · intro d
    rfl
  · intro σ n m oplus mu Sigma gate nu S crossCov h
    simp [ukfUpdate, h]

/-- Concrete 1-dimensional innovation for the gate-rejection witness. -/
def nuW : Fin 1 → ℚ := fun _ => 3

/-- Concrete 1x1 innovation covariance (identity). -/
def SW : Matrix (Fin 1) (Fin 1) ℚ := 1

/-- Concrete 1x1 cross covariance. -/
def crossCovW : Matrix (Fin 1) (Fin 1) ℚ := 0

/-- Concrete trivial boxplus for the witness. -/
def oplusW : Unit → (Fin 1 → ℚ) → Unit := fun _ _ => ()

/-- Witness for claim C1: at ν = 3, S = I the squared Mahalanobis distance is
9 > 5.991, `d2p95` rejects, and the update returns mean and covariance
unchanged. -/
theorem integrateMeasurement_gate_policy_witness :
    d2p95 (mahalanobis2 nuW SW) = false ∧
    ukfUpdate oplusW () SW d2p95 nuW SW crossCovW = ((), SW) := by
  have h : d2p95 (mahalanobis2 nuW SW) = false := by
    norm_num [d2p95, mahalanobis2, matInvQ, nuW, SW, Matrix.det_one,
      Matrix.adjugate_one, Matrix.one_mulVec, Matrix.dotProduct]
  exact ⟨h, integrateMeasurement_gate_policy.2.2.2.2 Unit 1 1 oplusW () SW d2p95
    nuW SW crossCovW h⟩

/-- `measurementPressureSensor` (PoseUKF.cpp lines 103-111): expected pressure
at the sensor position `position + orientation * pressure_sensor_in_imu`. -/
def measurementPressureSensor (state : PoseState) (pressure_sensor_in_imu : Vec3)
    (atmospheric_pressure : ℚ) : ℚ :=
  let pressure_sensor_in_nav := state.position + qrot state.orientation pressure_sensor_in_imu
  atmospheric_pressure - pressure_sensor_in_nav.z * state.gravity * state.water_density

/-- The concrete state of spec scenario S-2: depth 10 m, gravity 9.81,
water density 1025. -/
def stateS2 : PoseState :=
  { position := ⟨0, 0, -10⟩
    orientation := ⟨1, 0, 0, 0⟩
    velocity := 0
    acceleration := 0
    bias_gyro := 0
    bias_acc := 0
    gravity := 981 / 100
    inertia := fun _ => 0
    lin_damping := fun _ => 0
    quad_damping := fun _ => 0
    water_velocity := 0
    water_velocity_below := 0
    bias_adcp := 0
    water_density := 1025 }

/-- Claim C10: the pressure measurement model returns
`P_atm − z_sensor · gravity · water_density` with
`z_sensor = (position + orientation · r_sensor_in_imu).z`; at position.z = −10,
r_sensor_in_imu = 0, gravity = 9.81, water_density = 1025, P_atm = 101325 it
returns 201877.5 Pa exactly (hence within 0.5). -/
theorem measurementPressureSensor_model :
    (∀ (state : PoseState) (r : Vec3) (p_atm : ℚ),
        measurementPressureSensor state r p_atm =
          p_atm - (state.position + qrot state.orientation r).z *
            state.gravity * state.water_density) ∧
    measurementPressureSensor stateS2 0 101325 = 403755 / 2 ∧
    |measurementPressureSensor stateS2 0 101325 - 403755 / 2| ≤ 1 / 2 := by
  refine ⟨fun state r p_atm => rfl, ?_, ?_⟩
  · norm_num [measurementPressureSensor, stateS2, qrot, crossV]
  · norm_num [measurementPressureSensor, stateS2, qrot, crossV]

/-- A default-constructed `base::VectorXd` (Eigen dynamic vector) has length
zero (`base::VectorXd X;` in measurementEfforts, PoseUKF.cpp line 193). -/
def emptyVectorXd : List ℚ := []

/-- Bounds-checked element write on a dynamic vector: the error branch
(`none`) is taken when the index is out of bounds. -/
def vsetE (xs : List ℚ) (i : ℕ) (q : ℚ) : Option (List ℚ) :=
  if i < xs.length then some (xs.set i q) else none

/-- The six element writes building the SVR regression input `X`
(PoseUKF.cpp lines 195-200), Option-chained through the bounds check. -/
def buildXE (velocity_6d acceleration_6d : Fin 6 → ℚ) : Option (List ℚ) :=
  (vsetE emptyVectorXd 0 (velocity_6d 0)).bind fun x1 =>
  (vsetE x1 1 (velocity_6d 1)).bind fun x2 =>
  (vsetE x2 2 (velocity_6d 5)).bind fun x3 =>
  (vsetE x3 3 (acceleration_6d 0)).bind fun x4 =>
  (vsetE x4 4 (acceleration_6d 1)).bind fun x5 =>
  vsetE x5 5 (acceleration_6d 5)

/-- The same six writes with the unchecked C++ `operator[]` modelled totally:
`List.set` leaves the vector unchanged when the index is out of bounds. -/
def buildX (velocity_6d acceleration_6d : Fin 6 → ℚ) : List ℚ :=
  (((((emptyVectorXd.set 0 (velocity_6d 0)).set 1 (velocity_6d 1)).set 2
    (velocity_6d 5)).set 3 (acceleration_6d 0)).set 4 (acceleration_6d 1)).set 5
    (acceleration_6d 5)

/-- Claim C5: the regression input `X` is a zero-length dynamic vector and the
six writes at indices 0..5 happen with no prior resize: each access is out of
bounds (every single write on the empty vector takes the error branch, the
Option chain collapses to `none`, and under the total semantics the vector
stays empty). -/
theorem measurementEfforts_X_out_of_bounds :
    (∀ velocity_6d acceleration_6d : Fin 6 → ℚ,
        buildXE velocity_6d acceleration_6d = none) ∧
    (∀ (i : Fin 6) (q : ℚ), vsetE emptyVectorXd i.1 q = none) ∧
    (∀ velocity_6d acceleration_6d : Fin 6 → ℚ,
        buildX velocity_6d acceleration_6d = emptyVectorXd) := by
  refine ⟨fun v a => rfl, fun i q => ?_, fun v a => rfl⟩
  simp [vsetE, emptyVectorXd]

/-- The SVR feature-name writes of measurementEfforts (PoseUKF.cpp lines
202-213) in source order: `(index, string)` per assignment.  Index 4 appears
twice ("fitout_X" then "fitout_y"); index 5 never appears. -/
def fNamesAssignments : List (ℕ × String) :=
  [(0, "scaler_params"), (1, "params_x"), (2, "params_y"), (3, "params_yaw"),
   (4, "fitout_X"), (4, "fitout_y"), (6, "fitout_yaw"), (7, "s_x"), (8, "s_y"),
   (9, "s_yaw")]

/-- `std::string f_names [10]` value-initializes ten empty strings; the
assignments are then applied in source order. -/
def fNamesTable : List String :=
  fNamesAssignments.foldl (fun t p => t.set p.1 p.2) (List.replicate 10 "")

/-- Claim C6: the ten-entry feature-name table writes index 4 twice (first
"fitout_X", then "fitout_y") and never writes index 5, so the call to
`predict_efforts` receives "fitout_y" at the argument position fed from
`f_names[4]` (intended for "fitout_x") and the default-initialized empty
string at the position fed from `f_names[5]` (intended for "fitout_y"). -/
theorem fNames_index_bug :
    (fNamesAssignments.map Prod.fst).count 4 = 2 ∧
    5 ∉ fNamesAssignments.map Prod.fst ∧
    fNamesAssignments.get? 4 = some (4, "fitout_X") ∧
    fNamesAssignments.get? 5 = some (4, "fitout_y") ∧
    fNamesTable.getD 4 "" = "fitout_y" ∧
    fNamesTable.getD 5 "" = "" := by
  refine ⟨by decide, by decide, rfl, rfl, by decide, by decide⟩

/-- `uwv_dynamic_model::UWVParameters`: the 6x6 inertia matrix and the linear
(`damping_matrices[0]`) and quadratic (`damping_matrices[1]`) damping
matrices. -/
structure UWVParameters where
  inertia_matrix : Matrix (Fin 6) (Fin 6) ℚ
  lin_damping_matrix : Matrix (Fin 6) (Fin 6) ℚ
  quad_damping_matrix : Matrix (Fin 6) (Fin 6) ℚ
deriving DecidableEq

/-- The four block writes of measurementEfforts (PoseUKF.cpp lines 159-170)
injecting a vectorized 3x3 state block into rows/columns {0, 1, 5} of a 6x6
parameter matrix: `block(0,0,2,2)`, `block(0,5,2,1)`, `block(5,0,1,2)` and
`block(5,5,1,1)` receive the state's `block(0,0,2,2)`, `block(0,2,2,1)`,
`block(2,0,1,2)` and `block(2,2,1,1)` (column-major component `r + 3c`). -/
def injectBlock (M : Matrix (Fin 6) (Fin 6) ℚ) (d : Fin 9 → ℚ) :
    Matrix (Fin 6) (Fin 6) ℚ :=
  fun r c =>
    if h : r.1 < 2 ∧ c.1 < 2 then d ⟨r.1 + 3 * c.1, by omega⟩
    else if h : r.1 < 2 ∧ c.1 = 5 then d ⟨r.1 + 6, by omega⟩
    else if h : r.1 = 5 ∧ c.1 < 2 then d ⟨2 + 3 * c.1, by omega⟩
    else if r.1 = 5 ∧ c.1 = 5 then d ⟨8, by omega⟩
    else M r c

/-- `getUWVParameters` + the twelve block writes + `setUWVParameters`
(PoseUKF.cpp lines 158-172): the new parameters of the shared dynamic model. -/
def injectParams (p : UWVParameters) (state : PoseState) : UWVParameters :=
  { inertia_matrix := injectBlock p.inertia_matrix state.inertia
    lin_damping_matrix := injectBlock p.lin_damping_matrix state.lin_damping
    quad_damping_matrix := injectBlock p.quad_damping_matrix state.quad_damping }

/-- External collaborators of measurementEfforts: the hydrodynamic model's
`calcEfforts` (evaluated on the model's current parameters) and the SVR
regression `predict_efforts` (input vector plus ten feature-name strings). -/
structure EffortsEnv where
  calcEfforts : UWVParameters → (Fin 6 → ℚ) → (Fin 6 → ℚ) → Quat → (Fin 6 → ℚ)
  predict_efforts : List ℚ → String → String → String → String → String →
    String → String → String → String → String → (Fin 3 → ℚ)

/-- `measurementEfforts` (PoseUKF.cpp lines 149-230) with the shared dynamic
model's parameter state passed explicitly: the function returns the efforts
vector together with the dynamic model's parameters after the in-place
`setUWVParameters` mutation (which happens before the effort evaluation). -/
def measurementEfforts (env : EffortsEnv) (state : PoseState)
    (dynamic_model : UWVParameters) (imu_in_body rotation_rate_body : Vec3) :
    UWVParameters × (Fin 6 → ℚ) :=
  let params := injectParams dynamic_model state
  let water_velocity : Vec3 := ⟨state.water_velocity.x, state.water_velocity.y, 0⟩
  let velocity_body0 :=
    qrot (qinv state.orientation) state.velocity - crossV rotation_rate_body imu_in_body
  let velocity_body := velocity_body0 - qrot (qinv state.orientation) water_velocity
  let velocity_6d : Fin 6 → ℚ :=
    ![velocity_body.x, velocity_body.y, velocity_body.z,
      rotation_rate_body.x, rotation_rate_body.y, rotation_rate_body.z]
  let acceleration_body :=
    qrot (qinv state.orientation) state.acceleration -
      crossV rotation_rate_body (crossV rotation_rate_body imu_in_body)
  let acceleration_6d : Fin 6 → ℚ :=
    ![acceleration_body.x, acceleration_body.y, acceleration_body.z, 0, 0, 0]
  let X := buildX velocity_6d acceleration_6d
  let efforts_sklearn := env.predict_efforts X
    (fNamesTable.getD 0 "") (fNamesTable.getD 1 "") (fNamesTable.getD 2 "")
    (fNamesTable.getD 3 "") (fNamesTable.getD 4 "") (fNamesTable.getD 5 "")
    (fNamesTable.getD 6 "") (fNamesTable.getD 7 "") (fNamesTable.getD 8 "")
    (fNamesTable.getD 9 "")
  let efforts0 := env.calcEfforts params acceleration_6d velocity_6d state.orientation
  let efforts : Fin 6 → ℚ := fun i =>
    if i = 0 then efforts_sklearn 0
    else if i = 1 then efforts_sklearn 1
    else if i = 5 then efforts_sklearn 2
    else efforts0 i
  (params, efforts)

/-- Claim C4 (amended): the body-efforts measurement function is deterministic
(equal states give equal results), but it is not side-effect free: it mutates
the shared hydrodynamic model in place, leaving the model's parameter
matrices overwritten with the state's inertia and damping blocks. -/
theorem measurementEfforts_determinism_and_mutation (env : EffortsEnv)
    (s t : PoseState) (dynamic_model : UWVParameters)
    (imu_in_body rotation_rate_body : Vec3) :
    (s = t → measurementEfforts env s dynamic_model imu_in_body rotation_rate_body =
      measurementEfforts env t dynamic_model imu_in_body rotation_rate_body) ∧
    (measurementEfforts env s dynamic_model imu_in_body rotation_rate_body).1 =
      injectParams dynamic_model s :=
  ⟨fun h => by rw [h], rfl⟩

/-- Zero hydrodynamic parameters for the counterexample. -/
def dmZero : UWVParameters := ⟨0, 0, 0⟩

/-- A state whose vectorized hydrodynamic parameter blocks are all ones. -/
def stateOne : PoseState :=
  { position := 0
    orientation := ⟨1, 0, 0, 0⟩
    velocity := 0
    acceleration := 0
    bias_gyro := 0
    bias_acc := 0
    gravity := 981 / 100
    inertia := fun _ => 1
    lin_damping := fun _ => 1
    quad_damping := fun _ => 1
    water_velocity := 0
    water_velocity_below := 0
    bias_adcp := 0
    water_density := 1025 }

/-- Trivial concrete external collaborators for the effort evaluations. -/
def envEffC : EffortsEnv :=
  { calcEfforts := fun _ _ _ _ => fun _ => 0
    predict_efforts := fun _ _ _ _ _ _ _ _ _ _ _ => fun _ => 0 }

/-- Claim C4 counterexample: evaluating the body-efforts measurement on a
state with unit parameter blocks and a zero-parameter dynamic model leaves
the shared dynamic model changed — its inertia matrix entry (0,0) becomes 1 —
so the evaluation does mutate an object outside the returned effort vector. -/
theorem measurementEfforts_mutation_counterexample :
    (measurementEfforts envEffC stateOne dmZero 0 0).1 ≠ dmZero := by
  intro h
  have h2 := congrFun (congrFun (congrArg UWVParameters.inertia_matrix h) 0) 0
  simp [measurementEfforts, injectParams, injectBlock, dmZero, stateOne,
    Matrix.zero_apply] at h2

/-- Witness for claim C4's amended theorem at a concrete input. -/
theorem measurementEfforts_determinism_and_mutation_witness :
    stateOne = stateOne ∧
    (measurementEfforts envEffC stateOne dmZero 0 0 =
      measurementEfforts envEffC stateOne dmZero 0 0 ∧
    (measurementEfforts envEffC stateOne dmZero 0 0).1 =
      injectParams dmZero stateOne) :=
  ⟨rfl,
   ⟨(measurementEfforts_determinism_and_mutation envEffC stateOne stateOne dmZero 0 0).1 rfl,
    (measurementEfforts_determinism_and_mutation envEffC stateOne stateOne dmZero 0 0).2⟩⟩

/-- The guard of the per-feature loop in the visual-marker
`integrateMeasurement` (PoseUKF.cpp line 468):
`i < marker_corners.size() || i < feature_positions.size()`. -/
def visualLoopGuard (n m i : ℕ) : Prop := i < n ∨ i < m

/-- Both per-iteration accesses `marker_corners[i]` and `feature_positions[i]`
are in bounds. -/
def visualAccessInBounds (n m i : ℕ) : Prop := i < n ∧ i < m

/-- Claim C7: the visual-feature loop joins its two bounds with logical OR, so
it iterates exactly over `i < max n m`; every access is in bounds on every
iteration if and only if the two input vectors have equal length, and for any
unequal lengths some iteration accesses one vector out of bounds. -/
theorem visual_loop_bounds (n m : ℕ) :
    ((∀ i, visualLoopGuard n m i → visualAccessInBounds n m i) ↔ n = m) ∧
    (∀ i, visualLoopGuard n m i ↔ i < max n m) ∧
    (n ≠ m → ∃ i, visualLoopGuard n m i ∧ ¬ visualAccessInBounds n m i) := by
  unfold visualLoopGuard visualAccessInBounds
  refine ⟨⟨fun h => ?_, fun h i hi => ?_⟩, fun i => ?_, fun hne => ?_⟩
  · rcases Nat.lt_trichotomy n m with h1 | h1 | h1
    · exact absurd (h n (Or.inr h1)).1 (lt_irrefl n)
    · exact h1
    · exact absurd (h m (Or.inl h1)).2 (lt_irrefl m)
  · subst h
    rcases hi with hi | hi <;> exact ⟨hi, hi⟩
  · omega
  · rcases Nat.lt_trichotomy n m with h1 | h1 | h1
    · exact ⟨n, Or.inr h1, fun hc => absurd hc.1 (lt_irrefl n)⟩
    · exact absurd h1 hne
    · exact ⟨m, Or.inl h1, fun hc => absurd hc.2 (lt_irrefl m)⟩

/-- Witness for claim C7: with one corner and two feature positions the loop
reaches an out-of-bounds access. -/
theorem visual_loop_bounds_witness :
    (1 : ℕ) ≠ 2 ∧
    (∃ i, visualLoopGuard 1 2 i ∧ ¬ visualAccessInBounds 1 2 i) :=
  ⟨by decide, (visual_loop_bounds 1 2).2.2 (by decide)⟩

/-- The augmented manifold `PoseStateWithMarker` (PoseUKF.cpp lines 260-264):
the filter state extended by a marker position and orientation (42 = 36 + 6
degrees of freedom; PoseState.hpp fixes WState::DOF = 36 per the spec). -/
structure PoseStateWithMarker where
  filter_state : PoseState
  marker_position : Vec3
  marker_orientation : Quat

/-- The augmented covariance built in the visual `integrateMeasurement`
(PoseUKF.cpp lines 458-460): start from zero, write the current 36x36 filter
covariance into the top-left block and the given 6x6 marker-pose covariance
into the bottom-right corner. -/
def buildAugCov (Sigma : Matrix (Fin 36) (Fin 36) ℚ)
    (cov_marker_pose : Matrix (Fin 6) (Fin 6) ℚ) : Matrix (Fin 42) (Fin 42) ℚ :=
  fun i j =>
    if h : i.1 < 36 ∧ j.1 < 36 then Sigma ⟨i.1, h.1⟩ ⟨j.1, h.2⟩
    else if h : 36 ≤ i.1 ∧ 36 ≤ j.1 then
      cov_marker_pose ⟨i.1 - 36, by omega⟩ ⟨j.1 - 36, by omega⟩
    else 0

/-- The top-left 36x36 partition `sigma().block(0,0,WState::DOF,WState::DOF)`
of an augmented covariance (PoseUKF.cpp line 487). -/
def topLeft36 (P : Matrix (Fin 42) (Fin 42) ℚ) : Matrix (Fin 36) (Fin 36) ℚ :=
  fun i j => P ⟨i.1, by omega⟩ ⟨j.1, by omega⟩

/-- `CameraConfiguration`: pinhole intrinsics. -/
structure CameraConfiguration where
  fx : ℚ
  fy : ℚ
  cx : ℚ
  cy : ℚ

/-- A visual feature measurement: pixel mean and 2x2 pixel covariance. -/
structure VisualFeatureMeasurement where
  mu : Vec2
  cov : Matrix (Fin 2) (Fin 2) ℚ

/-- The camera-frame ray built from a pixel (PoseUKF.cpp lines 473-475):
`((u - cx)/fx, (v - cy)/fy, 1)`.  (The MTK::S2 constructor then normalizes
this ray; normalization is irrational and belongs to the external manifold
library, so the unnormalized ray represents the S2 point here.) -/
def pixelRay (camera : CameraConfiguration) (p : Vec2) : Vec3 :=
  ⟨(p.x - camera.cx) / camera.fx, (p.y - camera.cy) / camera.fy, 1⟩

/-- The pixel covariance propagated onto the ray (PoseUKF.cpp lines 463-465
and 476-478): entries divided by fx², fx·fy and fy². -/
def pixelRayCov (camera : CameraConfiguration) (cov : Matrix (Fin 2) (Fin 2) ℚ) :
    Matrix (Fin 2) (Fin 2) ℚ :=
  !![cov 0 0 / (camera.fx * camera.fx), cov 0 1 / (camera.fx * camera.fy);
     cov 1 0 / (camera.fx * camera.fy), cov 1 1 / (camera.fy * camera.fy)]

/-- The external ukfom engine instantiated on the augmented manifold: one
update step takes the augmented mean and covariance, the projected ray, its
covariance, the feature position (the visual-landmark measurement model is
bound to it) and the gate. -/
structure VisualEnv where
  augUpdate : PoseStateWithMarker → Matrix (Fin 42) (Fin 42) ℚ → Vec3 →
    Matrix (Fin 2) (Fin 2) ℚ → Vec3 → (ℚ → Bool) →
    PoseStateWithMarker × Matrix (Fin 42) (Fin 42) ℚ

/-- One iteration of the per-feature loop (PoseUKF.cpp lines 468-484): project
the pixel into a ray with its covariance and run one update on the augmented
filter with the accept-any gate. -/
def visualStep (env : VisualEnv) (camera : CameraConfiguration)
    (sp : PoseStateWithMarker × Matrix (Fin 42) (Fin 42) ℚ)
    (mc : VisualFeatureMeasurement) (feature_pos : Vec3) :
    PoseStateWithMarker × Matrix (Fin 42) (Fin 42) ℚ :=
  env.augUpdate sp.1 sp.2 (pixelRay camera mc.mu) (pixelRayCov camera mc.cov)
    feature_pos accept_any_mahalanobis_distance

/-- Default corner for the total modelling of the loop's vector accesses. -/
def defaultCorner : VisualFeatureMeasurement := ⟨⟨0, 0⟩, 0⟩

/-- The visual-marker `integrateMeasurement` (PoseUKF.cpp lines 448-488):
augment the state with the marker pose, build the block-diagonal augmented
covariance, loop the per-feature updates for `i < max n m` (the OR-joined
guard), then write back the PoseState component of the posterior mean and the
top-left 36x36 block of the posterior covariance, discarding the marker
block. -/
def integrateMeasurementVisual (env : VisualEnv) (mu : PoseState)
    (Sigma : Matrix (Fin 36) (Fin 36) ℚ) (marker_position : Vec3)
    (marker_orientation : Quat) (cov_marker_pose : Matrix (Fin 6) (Fin 6) ℚ)
    (marker_corners : List VisualFeatureMeasurement)
    (feature_positions : List Vec3) (camera : CameraConfiguration) :
    PoseState × Matrix (Fin 36) (Fin 36) ℚ :=
  let augmented_state : PoseStateWithMarker :=
    ⟨mu, marker_position, marker_orientation⟩
  let augmented_state_cov := buildAugCov Sigma cov_marker_pose
  let final := (List.range (max marker_corners.length feature_positions.length)).foldl
    (fun sp i => visualStep env camera sp (marker_corners.getD i defaultCorner)
      (feature_positions.getD i 0))
    (augmented_state, augmented_state_cov)
  (final.1.filter_state, topLeft36 final.2)

/-- The specified form of the visual protocol: one update per feature
correspondence, folded over the zipped corner/feature lists, followed by the
same write-back. -/
def visualZipResult (env : VisualEnv) (camera : CameraConfiguration)
    (mu : PoseState) (Sigma : Matrix (Fin 36) (Fin 36) ℚ)
    (marker_position : Vec3) (marker_orientation : Quat)
    (cov_marker_pose : Matrix (Fin 6) (Fin 6) ℚ)
    (marker_corners : List VisualFeatureMeasurement)
    (feature_positions : List Vec3) :
    PoseState × Matrix (Fin 36) (Fin 36) ℚ :=
  let final := (marker_corners.zip feature_positions).foldl
    (fun sp p => visualStep env camera sp p.1 p.2)
    (⟨mu, marker_position, marker_orientation⟩, buildAugCov Sigma cov_marker_pose)
  (final.1.filter_state, topLeft36 final.2)

/-- The block-diagonal shape of the augmented covariance: top-left 36x36 block
equal to the filter covariance, bottom-right 6x6 block equal to the marker
covariance, off-diagonal blocks zero. -/
def augCovBlockSpec (Sigma : Matrix (Fin 36) (Fin 36) ℚ)
    (cov_marker_pose : Matrix (Fin 6) (Fin 6) ℚ) : Prop :=
  (∀ i j : Fin 36,
      buildAugCov Sigma cov_marker_pose ⟨i.1, by omega⟩ ⟨j.1, by omega⟩ = Sigma i j) ∧
  (∀ i j : Fin 6,
      buildAugCov Sigma cov_marker_pose ⟨36 + i.1, by omega⟩ ⟨36 + j.1, by omega⟩ =
        cov_marker_pose i j) ∧
  (∀ i j : Fin 42, (i.1 < 36 ∧ 36 ≤ j.1) ∨ (36 ≤ i.1 ∧ j.1 < 36) →
      buildAugCov Sigma cov_marker_pose i j = 0)

theorem foldl_range_getD_eq_zip {α β γ : Type} (f : γ → α → β → γ)
    (da : α) (db : β) :
    ∀ (as : List α) (bs : List β) (c : γ), as.length = bs.length →
      (List.range (max as.length bs.length)).foldl
        (fun g i => f g (as.getD i da) (bs.getD i db)) c =
      (as.zip bs).foldl (fun g p => f g p.1 p.2) c := by
  intro as
  induction as with
  | nil =>
    intro bs c h
    cases bs with
    | nil => simp
    | cons b bs => simp at h
  | cons a as ih =>
    intro bs c h
    cases bs with
    | nil => simp at h
    | cons b bs =>
      simp only [List.length_cons] at h ⊢
      rw [Nat.succ_max_succ, List.range_succ_eq_map, List.foldl_cons,
        List.foldl_map, List.zip_cons_cons, List.foldl_cons]
      simp only [List.getD_cons_zero, List.getD_cons_succ]
      exact ih bs (f c a b) (Nat.succ_injective h)

/-- Claim C8: for every visual-marker batch with matching corner/feature
counts, `integrateMeasurement` builds a 42-DOF augmented state whose
covariance is block-diagonal (top-left 36x36 block the current Σ, bottom-right
6x6 block the given marker-pose covariance, zero off-diagonals), runs exactly
one update per feature correspondence with the accept-any gate, and replaces
the filter mean and covariance by the PoseState component and the top-left
36x36 block of the augmented posterior, discarding the marker block. -/
theorem visual_marker_augmentation (env : VisualEnv) (camera : CameraConfiguration)
    (mu : PoseState) (Sigma : Matrix (Fin 36) (Fin 36) ℚ)
    (marker_position : Vec3) (marker_orientation : Quat)
    (cov_marker_pose : Matrix (Fin 6) (Fin 6) ℚ)
    (marker_corners : List VisualFeatureMeasurement)
    (feature_positions : List Vec3)
    (h : marker_corners.length = feature_positions.length) :
    integrateMeasurementVisual env mu Sigma marker_position marker_orientation
        cov_marker_pose marker_corners feature_positions camera =
      visualZipResult env camera mu Sigma marker_position marker_orientation
        cov_marker_pose marker_corners feature_positions ∧
    (marker_corners.zip feature_positions).length = marker_corners.length ∧
    augCovBlockSpec Sigma cov_marker_pose ∧
    (∀ d : ℚ, accept_any_mahalanobis_distance d = true) := by
  refine ⟨?_, ?_, ⟨?_, ?_, ?_⟩, fun d => rfl⟩
  · simp only [integrateMeasurementVisual, visualZipResult]
    rw [foldl_range_getD_eq_zip (visualStep env camera) defaultCorner 0
      marker_corners feature_positions _ h]
  · simp [h]
  · intro i j
    unfold buildAugCov
    rw [dif_pos ⟨i.isLt, j.isLt⟩]
  · intro i j
    unfold buildAugCov
    simp only [Fin.val_mk]
    rw [dif_neg (by omega), dif_pos (by omega)]
    simp only [Nat.add_sub_cancel_left, Fin.eta]
  · intro i j hij
    unfold buildAugCov
    rw [dif_neg (by omega), dif_neg (by omega)]

/-- Concrete trivial augmented engine for the witness. -/
def visualEnvW : VisualEnv := ⟨fun s c _ _ _ _ => (s, c)⟩

/-- Concrete camera intrinsics for the witness. -/
def cameraW : CameraConfiguration := ⟨1, 1, 0, 0⟩

/-- Concrete corner list for the witness. -/
def cornersW : List VisualFeatureMeasurement := [⟨⟨1, 2⟩, 0⟩]

/-- Concrete feature-position list for the witness. -/
def featuresW : List Vec3 := [⟨0, 0, 1⟩]

/-- Concrete filter covariance for the witness. -/
def SigmaW : Matrix (Fin 36) (Fin 36) ℚ := 1

/-- Concrete marker-pose covariance for the witness. -/
def McovW : Matrix (Fin 6) (Fin 6) ℚ := 1

/-- Witness for claim C8 at a concrete one-feature batch. -/
theorem visual_marker_augmentation_witness :
    cornersW.length = featuresW.length ∧
    (integrateMeasurementVisual visualEnvW stateOne SigmaW 0 ⟨1, 0, 0, 0⟩ McovW
        cornersW featuresW cameraW =
      visualZipResult visualEnvW cameraW stateOne SigmaW 0 ⟨1, 0, 0, 0⟩ McovW
        cornersW featuresW ∧
    (cornersW.zip featuresW).length = cornersW.length ∧
    augCovBlockSpec SigmaW McovW ∧
    (∀ d : ℚ, accept_any_mahalanobis_distance d = true)) :=
  ⟨rfl, visual_marker_augmentation visualEnvW cameraW stateOne SigmaW 0
    ⟨1, 0, 0, 0⟩ McovW cornersW featuresW rfl⟩

/-- Both indices lie in the `k x k` diagonal sub-block at offset `off`
(the entries selected by `MTK::subblock` for a state field of DOF `k`). -/
abbrev inBlk {n : ℕ} (off k : ℕ) (i j : Fin n) : Prop :=
  off ≤ i.1 ∧ i.1 < off + k ∧ off ≤ j.1 ∧ j.1 < off + k

/-- Read the `k x k` diagonal sub-block at offset `off` of a covariance
(`MTK::subblock` on the right-hand side of an assignment). -/
def subRead {n : ℕ} (Q : Matrix (Fin n) (Fin n) ℚ) (off k : ℕ) :
    Matrix (Fin k) (Fin k) ℚ :=
  fun a b =>
    if h : off + a.1 < n ∧ off + b.1 < n then Q ⟨off + a.1, h.1⟩ ⟨off + b.1, h.2⟩
    else 0

/-- Overwrite the `k x k` diagonal sub-block at offset `off`
(`MTK::subblock` on the left-hand side of an assignment). -/
def subWrite {n : ℕ} (Q : Matrix (Fin n) (Fin n) ℚ) (off k : ℕ)
    (B : Matrix (Fin k) (Fin k) ℚ) : Matrix (Fin n) (Fin n) ℚ :=
  fun i j =>
    if h : inBlk off k i j then B ⟨i.1 - off, by omega⟩ ⟨j.1 - off, by omega⟩
    else Q i j

theorem subWrite_apply_in {n : ℕ} (Q : Matrix (Fin n) (Fin n) ℚ) (off k : ℕ)
    (B : Matrix (Fin k) (Fin k) ℚ) (i j : Fin n) (h : inBlk off k i j) :
    subWrite Q off k B i j = B ⟨i.1 - off, by omega⟩ ⟨j.1 - off, by omega⟩ := by
  unfold subWrite
  exact dif_pos h

theorem subWrite_apply_out {n : ℕ} (Q : Matrix (Fin n) (Fin n) ℚ) (off k : ℕ)
    (B : Matrix (Fin k) (Fin k) ℚ) (i j : Fin n) (h : ¬ inBlk off k i j) :
    subWrite Q off k B i j = Q i j := by
  unfold subWrite
  exact dif_neg h

/-- The velocity with its Z component scaled by 10 to have 10x more impact
(PoseUKF.cpp lines 336-337). -/
def scaledVelocity (v : Vec3) : Vec3 := ⟨v.x, v.y, 10 * v.z⟩

/-- Eigen `squaredNorm` of a 3-vector. -/
def sqNorm (v : Vec3) : ℚ := v.x * v.x + v.y * v.y + v.z * v.z

/-- The process-noise assembly of `PoseUKF::predictionStepImpl` (PoseUKF.cpp
lines 329-345), generic in the block layout of the state manifold (`oOri`,
`oWv`, `oWvb` are the covariance offsets of the orientation and the two
water-velocity fields, which PoseState.hpp's manifold builder determines):
copy the configured noise, rotate the 3x3 orientation block into the body
frame, add `s·|v_scaled|²·Δt · I₂` to both water-velocity blocks (each
computed from the CONFIGURED block, as in the source), then scale the whole
matrix by Δt². -/
def predictionProcessNoise {n : ℕ} (Q : Matrix (Fin n) (Fin n) ℚ)
    (orientation : Quat) (velocity : Vec3) (water_velocity_scale dt : ℚ)
    (oOri oWv oWvb : ℕ) : Matrix (Fin n) (Fin n) ℚ :=
  (dt * dt) •
    subWrite
      (subWrite
        (subWrite Q oOri 3
          (quatToMat orientation * subRead Q oOri 3 *
            (quatToMat orientation).transpose))
        oWv 2
        (subRead Q oWv 2 +
          (water_velocity_scale * sqNorm (scaledVelocity velocity) * dt) •
            (1 : Matrix (Fin 2) (Fin 2) ℚ)))
      oWvb 2
      (subRead Q oWvb 2 +
        (water_velocity_scale * sqNorm (scaledVelocity velocity) * dt) •
          (1 : Matrix (Fin 2) (Fin 2) ℚ))

/-- The claimed entrywise description of the process noise actually used on a
prediction step: Δt² times the configured noise, with the orientation block
replaced by `R·Q_orient·Rᵀ` and each water-velocity block incremented on its
diagonal by `s·|v_scaled|²·Δt`. -/
def processNoiseSpec {n : ℕ} (Q : Matrix (Fin n) (Fin n) ℚ) (orientation : Quat)
    (velocity : Vec3) (s dt : ℚ) (oOri oWv oWvb : ℕ) : Prop :=
  ∀ i j : Fin n,
    predictionProcessNoise Q orientation velocity s dt oOri oWv oWvb i j =
      dt * dt *
        (if h : inBlk oOri 3 i j then
          (quatToMat orientation * subRead Q oOri 3 *
            (quatToMat orientation).transpose)
            ⟨i.1 - oOri, by omega⟩ ⟨j.1 - oOri, by omega⟩
        else if inBlk oWv 2 i j then
          Q i j + (if i = j then s * sqNorm (scaledVelocity velocity) * dt else 0)
        else if inBlk oWvb 2 i j then
          Q i j + (if i = j then s * sqNorm (scaledVelocity velocity) * dt else 0)
        else Q i j)

/-- The entry of an incremented water-velocity block seen through the
sub-block index arithmetic. -/
theorem subRead_add_smul_one_apply {n : ℕ} (Q : Matrix (Fin n) (Fin n) ℚ)
    (off : ℕ) (c : ℚ) (i j : Fin n) (hn : off + 2 ≤ n) (hin : inBlk off 2 i j) :
    (subRead Q off 2 + c • (1 : Matrix (Fin 2) (Fin 2) ℚ))
        ⟨i.1 - off, by omega⟩ ⟨j.1 - off, by omega⟩ =
      Q i j + (if i = j then c else 0) := by
  obtain ⟨a1, a2, a3, a4⟩ := hin
  simp only [Matrix.add_apply, Matrix.smul_apply, smul_eq_mul, Matrix.one_apply]
  unfold subRead
  rw [dif_pos ⟨by omega, by omega⟩]
  have hq : (⟨off + (i.1 - off), by omega⟩ : Fin n) = i :=
    Fin.ext (by simp only [Fin.val_mk]; omega)
  have hq2 : (⟨off + (j.1 - off), by omega⟩ : Fin n) = j :=
    Fin.ext (by simp only [Fin.val_mk]; omega)
  rw [hq, hq2]
  by_cases hij : i = j
  · subst hij
    rw [if_pos rfl, if_pos rfl, mul_one]
  · have hmk : (⟨i.1 - off, by omega⟩ : Fin 2) ≠ ⟨j.1 - off, by omega⟩ := by
      intro hc
      have hv := congrArg Fin.val hc
      simp only [Fin.val_mk] at hv
      exact hij (Fin.ext (by omega))
    rw [if_neg hmk, if_neg hij, mul_zero]

/-- Claim C9: on every prediction step the process noise actually used is the
configured Q with its orientation block rotated into the current body frame
(`R·Q_orient·Rᵀ`, R from the current orientation quaternion), with
`s·|v_scaled|²·Δt` (where `v_scaled = (vx, vy, 10·vz)` from the current
velocity estimate and `s` the `water_velocity_scale` parameter) added on the
diagonal of both water-velocity blocks, and the whole matrix finally
multiplied by Δt²; all other entries are just Δt² times the configured Q.
The block offsets are the manifold layout and are pairwise disjoint. -/
theorem prediction_process_noise_shape {n : ℕ} (Q : Matrix (Fin n) (Fin n) ℚ)
    (orientation : Quat) (velocity : Vec3) (s dt : ℚ) (oOri oWv oWvb : ℕ)
    (h1 : oOri + 3 ≤ oWv) (h2 : oWv + 2 ≤ oWvb) (h3 : oWvb + 2 ≤ n) :
    processNoiseSpec Q orientation velocity s dt oOri oWv oWvb := by
  intro i j
  unfold predictionProcessNoise
  simp only [Matrix.smul_apply, smul_eq_mul]
  congr 1
  by_cases hOri : inBlk oOri 3 i j
  · obtain ⟨a1, a2, a3, a4⟩ := hOri
    have hWv : ¬ inBlk oWv 2 i j := by
      intro hc
      obtain ⟨b1, b2, b3, b4⟩ := hc
      omega
    have hWvb : ¬ inBlk oWvb 2 i j := by
      intro hc
      obtain ⟨b1, b2, b3, b4⟩ := hc
      omega
    rw [subWrite_apply_out _ _ _ _ _ _ hWvb, subWrite_apply_out _ _ _ _ _ _ hWv,
      subWrite_apply_in _ _ _ _ _ _ ⟨a1, a2, a3, a4⟩, dif_pos ⟨a1, a2, a3, a4⟩]
  · rw [dif_neg hOri]
    by_cases hWv : inBlk oWv 2 i j
    · have hWvb : ¬ inBlk oWvb 2 i j := by
        obtain ⟨b1, b2, b3, b4⟩ := hWv
        intro hc
        obtain ⟨c1, c2, c3, c4⟩ := hc
        omega
      rw [subWrite_apply_out _ _ _ _ _ _ hWvb, subWrite_apply_in _ _ _ _ _ _ hWv,
        if_pos hWv, subRead_add_smul_one_apply _ _ _ _ _ (by omega) hWv]
    · rw [if_neg hWv]
      by_cases hWvb : inBlk oWvb 2 i j
      · rw [subWrite_apply_in _ _ _ _ _ _ hWvb, if_pos hWvb,
          subRead_add_smul_one_apply _ _ _ _ _ h3 hWvb]
      · rw [if_neg hWvb, subWrite_apply_out _ _ _ _ _ _ hWvb,
          subWrite_apply_out _ _ _ _ _ _ hWv, subWrite_apply_out _ _ _ _ _ _ hOri]

/-- Concrete configured noise for the C9 witness. -/
def QW : Matrix (Fin 8) (Fin 8) ℚ := 1

/-- Witness for claim C9 at a concrete 8-dimensional layout with the
orientation block at offset 0 and the water-velocity blocks at offsets 3
and 5. -/
theorem prediction_process_noise_shape_witness :
    ((0 : ℕ) + 3 ≤ 3 ∧ (3 : ℕ) + 2 ≤ 5 ∧ (5 : ℕ) + 2 ≤ 8) ∧
    processNoiseSpec QW ⟨1, 0, 0, 0⟩ ⟨1, 2, 3⟩ (1 / 4) (1 / 2) 0 3 5 :=
  ⟨⟨by omega, by omega, by omega⟩,
   prediction_process_noise_shape QW ⟨1, 0, 0, 0⟩ ⟨1, 2, 3⟩ (1 / 4) (1 / 2) 0 3 5
     (by omega) (by omega) (by omega)⟩
